import Mathlib

/-!
Verification of the TF-IDF retriever (`src/haystack/retriever/tfidf.py`).

The Python module is shallowly embedded below.  Pure string processing
(tokenization, paragraph splitting) is carried out on `List Char` / `String`
with computable functions; the numeric TF-IDF pipeline is embedded over `ℝ`
(the code's floating point arithmetic is modelled by exact real arithmetic,
with `Real.log` for `ln`).  The mutable retriever object becomes an explicit
state record, and Python exceptions become `Except` results.
-/

namespace Haystack

/-- Key→value metadata mapping of a document (`meta` dict).  Modelled as an
association list of strings. -/
abbrev Meta := List (String × String)

/-- Python is dynamically typed: ids of corpus documents are opaque store ids
(modelled as `String`, via `Sum.inr`), while `retrieve` builds result
documents whose `id` is an integer `paragraph_id` (`Sum.inl`). -/
abbrev DocId := Sum Nat String

/-- Modelled from the spec: `Document` from `haystack.database.base` (not under
`src/`) — `id` (opaque identifier), `text` (string), `meta` (key→value
mapping). -/
structure Document where
  id : DocId
  text : String
  meta : Meta
deriving DecidableEq

/-- The `Paragraph` namedtuple: `paragraph_id`, `document_id`, `text`, `meta`.
The code stores the segment as a 1-tuple `text=(p,)`; the tuple is modelled as
a `List String`. -/
structure Paragraph where
  paragraph_id : Nat
  document_id : DocId
  text : List String
  meta : Meta
deriving DecidableEq

/-- A row of `self.df` after `fit` has replaced the `text` column by
`" ".join(x)`: same fields as `Paragraph` but with a joined string text. -/
structure DfRow where
  paragraph_id : Nat
  document_id : DocId
  text : String
  meta : Meta
deriving DecidableEq

/-- Python `"sep".join(l)`. -/
def pyJoin (sep : String) : List String → String
  | [] => ""
  | [x] => x
  | x :: xs => x ++ sep ++ pyJoin sep xs

/-- A word character of the token pattern `(?u)\b\w\w+\b` (letters, digits,
underscore; ASCII fragment of Python's unicode `\w`). -/
def isWordChar (c : Char) : Bool := c.isAlphanum || c == '_'

/-- Splits a character stream into maximal runs of word characters
(accumulator holds the current run, reversed). -/
def tokensAux : List Char → List Char → List (List Char)
  | [], acc => if acc.isEmpty then [] else [acc.reverse]
  | c :: cs, acc =>
    if isWordChar c then tokensAux cs (c :: acc)
    else if acc.isEmpty then tokensAux cs [] else acc.reverse :: tokensAux cs []

/-- The analyzer of `TfidfVectorizer(lowercase=True, stop_words=None,
token_pattern=r"(?u)\b\w\w+\b", ngram_range=(1, 1))`: lowercase, then keep
the maximal word-character runs of length ≥ 2 as unigram terms. -/
def tokenize (s : String) : List String :=
  ((tokensAux (s.toList.map Char.toLower) []).filter (fun l => 2 ≤ l.length)).map
    (fun l => String.mk l)

/-- Python `text.split("\n\n")` specialised to the two-character blank-line
separator: accumulator-based splitting at each (non-overlapping, leftmost)
occurrence of two consecutive newlines. -/
def splitNN : List Char → List Char → List (List Char)
  | [], acc => [acc.reverse]
  | '\n' :: '\n' :: rest, acc => acc.reverse :: splitNN rest []
  | c :: rest, acc => splitNN rest (c :: acc)

/-- `doc.text.split("\n\n")` as used in `_get_all_paragraphs`. -/
def pySplitNN (s : String) : List String := (splitNN s.toList []).map (fun l => String.mk l)

/-- Python `str.strip()` whitespace (space, tab, newline, carriage return,
vertical tab, form feed). -/
def isPySpace (c : Char) : Bool :=
  c == ' ' || c == '\t' || c == '\n' || c == '\r' || c == '\x0b' || c == '\x0c'

/-- Python `p.strip()`. -/
def pyStrip (s : String) : String :=
  String.mk (((s.toList.dropWhile isPySpace).reverse.dropWhile isPySpace).reverse)

/-- Inner loop of `_get_all_paragraphs` over the segments of one document:
skip segments that strip to empty, otherwise emit a `Paragraph` carrying the
running `p_id` (returned alongside, as it keeps increasing across documents).
The segment is stored untrimmed as the 1-tuple `(p,)`. -/
def segLoop (docId : DocId) (meta : Meta) : Nat → List String → List Paragraph × Nat
  | pid, [] => ([], pid)
  | pid, p :: ps =>
    if pyStrip p = "" then segLoop docId meta pid ps
    else
      let rest := segLoop docId meta (pid + 1) ps
      (⟨pid, docId, [p], meta⟩ :: rest.1, rest.2)

/-- Outer loop of `_get_all_paragraphs` over the documents. -/
def docLoop : Nat → List Document → List Paragraph
  | _, [] => []
  | pid, d :: ds =>
    let r := segLoop d.id d.meta pid (pySplitNN d.text)
    r.1 ++ docLoop r.2 ds

/-- `TfidfRetriever._get_all_paragraphs`: the document store's current
document sequence (the argument) is segmented, with `p_id` starting at 0. -/
def getAllParagraphs (docs : List Document) : List Paragraph := docLoop 0 docs

/-- A sparse vector over terms, as a total function (zero outside its
support). -/
abbrev TermVec := String → ℝ

/-- Sparse dot product: sum over the vocabulary columns. -/
def dotV (vocab : List String) (f g : TermVec) : ℝ :=
  (vocab.map (fun t => f t * g t)).sum

/-- Euclidean (L2) norm of a vector restricted to the vocabulary columns. -/
noncomputable def l2normOn (vocab : List String) (f : TermVec) : ℝ :=
  Real.sqrt ((vocab.map (fun t => f t ^ 2)).sum)

/-- Document frequency of term `t`: the number of texts containing `t` at
least once. -/
def dfCount (texts : List String) (t : String) : Nat :=
  (texts.filter (fun x => t ∈ tokenize x)).length

/-- Number of occurrences of term `t` in a text. -/
def tfCount (x t : String) : Nat := (tokenize x).count t

/-- The fitted state of sklearn's `TfidfVectorizer`: the vocabulary (one
column per distinct term) and the idf weight of every term. -/
structure Vectorizer where
  vocab : List String
  idf : String → ℝ

/-- Modelled from the spec: `TfidfVectorizer.fit` of sklearn (external
library, not under `src/`) with the constructor arguments of
`TfidfRetriever.__init__` and sklearn defaults (`norm='l2'`,
`smooth_idf=True`, `sublinear_tf=False`): vocabulary of all distinct terms
and smoothed idf `ln((1 + P) / (1 + df(t))) + 1`. -/
noncomputable def fitVectorizer (texts : List String) : Vectorizer where
  vocab := (texts.flatMap tokenize).dedup
  idf := fun t =>
    Real.log ((1 + (texts.length : ℝ)) / (1 + (dfCount texts t : ℝ))) + 1

/-- Raw TF-IDF weight vector of a text over the fitted vocabulary:
`count(t) * idf(t)` for in-vocabulary terms, 0 otherwise. -/
noncomputable def rawTf (v : Vectorizer) (x : String) : TermVec := fun t =>
  if t ∈ v.vocab then (tfCount x t : ℝ) * v.idf t else 0

/-- Modelled from the spec: `TfidfVectorizer.transform` of sklearn (external
library, not under `src/`): raw TF-IDF weights, then L2 row normalization,
a zero row being left as-is. -/
noncomputable def transform (v : Vectorizer) (x : String) : TermVec := fun t =>
  if l2normOn v.vocab (rawTf v x) = 0 then rawTf v x t
  else rawTf v x t / l2normOn v.vocab (rawTf v x)

/-- The mutable state of a `TfidfRetriever` object.  `self.document_store` is
a reference to an external collaborator and holds no data of its own; it is
modelled by passing the store's current contents to the operations that
actually consult it (only `_get_all_paragraphs`, called from `__init__`). -/
structure RState where
  paragraphs : List Paragraph
  df : List DfRow
  vectorizer : Vectorizer
  tfidf_matrix : List TermVec

/-- The df row produced from a paragraph by `fit`: the `text` column is
replaced by `" ".join(x)` applied to the stored 1-tuple. -/
def toDfRow (p : Paragraph) : DfRow :=
  ⟨p.paragraph_id, p.document_id, pyJoin " " p.text, p.meta⟩

/-- `TfidfRetriever.fit` (successful path): rebuild `self.df` from
`self.paragraphs` (not from the document store), join the text tuples, and
refit the vectorizer and TF-IDF matrix on the joined texts. -/
noncomputable def fit (s : RState) : RState :=
  let dfRows := s.paragraphs.map toDfRow
  let texts := dfRows.map (·.text)
  { s with
    df := dfRows
    vectorizer := fitVectorizer texts
    tfidf_matrix := texts.map (transform (fitVectorizer texts)) }

/-- Where `fit` raises: an empty paragraph list makes
`pd.DataFrame.from_dict` produce a frame with no columns, so
`self.df["text"]` raises `KeyError`; a corpus with no terms at all makes
`fit_transform` raise sklearn's "empty vocabulary" `ValueError`. -/
inductive FitError where
  | emptyDataFrame
  | emptyVocabulary
deriving DecidableEq

/-- `TfidfRetriever.fit` with its failure modes made explicit. -/
noncomputable def fitE (s : RState) : Except FitError RState :=
  if s.paragraphs.isEmpty then .error .emptyDataFrame
  else if ((s.paragraphs.map (fun p => pyJoin " " p.text)).flatMap tokenize).isEmpty then
    .error .emptyVocabulary
  else .ok (fit s)

/-- The state assembled by `__init__` before its final `self.fit()` call:
paragraphs pulled once from the document store (whose current contents are
the argument), `self.df = None` (modelled as `[]`), vectorizer not yet
fitted. -/
def initRaw (docs : List Document) : RState where
  paragraphs := getAllParagraphs docs
  df := []
  vectorizer := ⟨[], fun _ => 0⟩
  tfidf_matrix := []

/-- `TfidfRetriever.__init__`: pull the paragraphs from the store, then run
`fit`; a failing `fit` propagates out of the constructor, so no retriever
object (and hence no index state) exists on failure. -/
noncomputable def init (docs : List Document) : Except FitError RState :=
  fitE (initRaw docs)

/-- Ordering key of `sorted(idx_scores, key=lambda tup: tup[1],
reverse=True)`: pair `x` may precede pair `y` when `x`'s score is at least
`y`'s. -/
def scoreDesc (x y : Nat × ℝ) : Prop := y.2 ≤ x.2

noncomputable instance : DecidableRel scoreDesc := fun x y =>
  inferInstanceAs (Decidable (y.2 ≤ x.2))

/-- `TfidfRetriever._calc_scores`: per-paragraph dot products of the TF-IDF
matrix with the encoded query. -/
noncomputable def scoresOf (s : RState) (query : String) : List ℝ :=
  let qv := transform s.vectorizer query
  s.tfidf_matrix.map (fun row => dotV s.vectorizer.vocab row qv)

/-- `TfidfRetriever._calc_scores`: enumerate the scores and sort them by
score descending with Python's stable `sorted` (`reverse=True` keeps equal
elements in enumeration order), yielding the `OrderedDict`'s key/value
sequence. -/
noncomputable def calcScores (s : RState) (query : String) : List (Nat × ℝ) :=
  List.insertionSort scoreDesc (scoresOf s query).enum

/-- The two `NotImplementedError`s of `TfidfRetriever.retrieve`. -/
inductive RetrieveError where
  | filtersNotImplemented
  | switchingIndexNotSupported
deriving DecidableEq

/-- Python truthiness of the `filters: dict = None` parameter: `None` and
`{}` are falsy. -/
def pyTruthyFilters : Option Meta → Bool
  | none => false
  | some l => !l.isEmpty

/-- Python truthiness of the `index: str = None` parameter: `None` and `""`
are falsy. -/
def pyTruthyIndex : Option String → Bool
  | none => false
  | some s => !s.isEmpty

/-- The result `Document` built by `retrieve` from a df row:
`Document(id=meta["paragraph_id"], text=para, meta=meta.get("meta", {}))` —
the `meta` passed on is the row's `meta` column, i.e. the owning document's
original meta. -/
def toResultDoc (r : DfRow) : Document := ⟨Sum.inl r.paragraph_id, r.text, r.meta⟩

/-- Out-of-range placeholder for `self.df.loc[i]` (never reached: ranked
indices come from enumerating the matrix rows, which are in bijection with
the df rows). -/
def defaultDfRow : DfRow := ⟨0, Sum.inr "", "", []⟩

/-- `TfidfRetriever.retrieve`: guard `filters` and `index` (Python
truthiness), rank (`self.df.loc[indices_and_scores.keys()]` reorders the df
rows by the sorted indices), slice `[:top_k]`, and package the rows as result
documents. -/
noncomputable def retrieveE (s : RState) (query : String) (filters : Option Meta)
    (top_k : Nat) (index : Option String) : Except RetrieveError (List Document) :=
  if pyTruthyFilters filters then .error .filtersNotImplemented
  else if pyTruthyIndex index then .error .switchingIndexNotSupported
  else
    let ranked := (calcScores s query).map Prod.fst
    let rows := (ranked.map (fun i => s.df.getD i defaultDfRow)).take top_k
    .ok (rows.map toResultDoc)

/-- `retrieve` as a state transformer: the method body reads
`self.df`/`self.tfidf_matrix`/`self.vectorizer` but contains no assignment to
`self`, so the state component it returns is the input state. -/
noncomputable def retrieveM (s : RState) (query : String) (filters : Option Meta)
    (top_k : Nat) (index : Option String) :
    RState × Except RetrieveError (List Document) :=
  (s, retrieveE s query filters top_k index)

/-- The blank-line-delimited segments of a document that survive the
`not p.strip()` emptiness check, in order. -/
def keptSegs (d : Document) : List String :=
  (pySplitNN d.text).filter (fun p => pyStrip p != "")

/-- The (document, kept segment) pairs of the whole corpus, in document order
then segment order. -/
def corpusSegs (docs : List Document) : List (Document × String) :=
  docs.flatMap (fun d => (keptSegs d).map (fun seg => (d, seg)))

/-- The paragraph built for the `k`-th kept segment of the corpus. -/
def mkPara (x : Nat × Document × String) : Paragraph :=
  ⟨x.1, x.2.1.id, [x.2.2], x.2.1.meta⟩

/-- The ordering actually materialized by `_calc_scores`: score strictly
descending, with equal scores resolved by original paragraph index
ascending. -/
def rankBefore (x y : Nat × ℝ) : Prop :=
  y.2 < x.2 ∨ (x.2 = y.2 ∧ x.1 < y.1)

/-- A one-document store used for concrete runs. -/
def docsA : List Document := [⟨Sum.inr "d1", "hello world", [("k", "v")]⟩]

/-- The store `docsA` after an external second document was added. -/
def docsB : List Document := docsA ++ [⟨Sum.inr "d2", "fresh news", []⟩]

/-- The retriever state constructed over `docsA`. -/
noncomputable def sA : RState := fit (initRaw docsA)

/-- The single result document of `retrieve("hello")` against `docsA`. -/
def resA : Document := ⟨Sum.inl 0, "hello world", [("k", "v")]⟩

/-- First paragraph text of the two-document scenario corpus. -/
def tA : String := "cats are great"

/-- Second paragraph text of the scenario corpus (second paragraph of the
first document). -/
def tB : String := "Dogs are great too"

/-- Third paragraph text of the scenario corpus (the second document). -/
def tC : String := "The weather is nice"

/-- The scenario query. -/
def qq : String := "cats great"

/-- The scenario corpus: two documents, the first containing two blank-line
separated paragraphs. -/
def corpus9 : List Document :=
  [⟨Sum.inr "doc1", "cats are great\n\nDogs are great too", []⟩,
   ⟨Sum.inr "doc2", "The weather is nice", []⟩]

/-- The retriever state constructed over the scenario corpus. -/
noncomputable def s9 : RState := fit (initRaw corpus9)

/-- The paragraph texts the scenario corpus segments into. -/
def T9 : List String := [tA, tB, tC]

/-- The fitted vectorizer of the scenario corpus. -/
noncomputable def v9 : Vectorizer := fitVectorizer T9

/-- The scenario vocabulary (dedup keeps the last occurrence of each
duplicated term). -/
def L9 : List String :=
  ["cats", "dogs", "are", "great", "too", "the", "weather", "is", "nice"]

/-- Idf weight of the scenario terms occurring in one paragraph of three:
`ln((1 + 3) / (1 + 1)) + 1`. -/
noncomputable def idfRare : ℝ := Real.log 2 + 1

/-- Idf weight of the scenario terms occurring in two paragraphs of three
("are", "great"): `ln((1 + 3) / (1 + 2)) + 1`. -/
noncomputable def idfCommon : ℝ := Real.log (4 / 3) + 1

/-- Cosine score of the first scenario paragraph against the query. -/
noncomputable def sc0 : ℝ := dotV v9.vocab (transform v9 tA) (transform v9 qq)

/-- Cosine score of the second scenario paragraph against the query. -/
noncomputable def sc1 : ℝ := dotV v9.vocab (transform v9 tB) (transform v9 qq)

/-- Cosine score of the third scenario paragraph against the query. -/
noncomputable def sc2 : ℝ := dotV v9.vocab (transform v9 tC) (transform v9 qq)

/-- Closed form of the inner segment loop: the kept segments, enumerated from
the running paragraph id, and the id advanced by their number. -/
theorem segLoop_eq (docId : DocId) (meta : Meta) (segs : List String) (pid : Nat) :
    segLoop docId meta pid segs
      = (((segs.filter (fun p => pyStrip p != "")).enumFrom pid).map
          (fun x => ⟨x.1, docId, [x.2], meta⟩),
         pid + (segs.filter (fun p => pyStrip p != "")).length) := by
  induction segs generalizing pid with
  | nil => simp [segLoop]
  | cons p ps ih =>
    by_cases h : pyStrip p = ""
    · simp [segLoop, h, ih pid]
    · rw [segLoop, if_neg h, ih (pid + 1),
        List.filter_cons_of_pos (by simp [bne_iff_ne, h]),
        List.enumFrom_cons]
      simp only [List.map_cons, List.length_cons, Prod.mk.injEq]
      exact ⟨trivial, by omega⟩

/-- Closed form of the outer document loop. -/
theorem docLoop_eq (docs : List Document) (pid : Nat) :
    docLoop pid docs = ((corpusSegs docs).enumFrom pid).map mkPara := by
  induction docs generalizing pid with
  | nil => simp [docLoop, corpusSegs]
  | cons d ds ih =>
    simp only [docLoop, segLoop_eq, corpusSegs, List.flatMap_cons,
      List.enumFrom_append, List.map_append, List.enumFrom_map, List.map_map,
      List.length_map, keptSegs]
    rw [ih]
    rfl

/-- C2: `_get_all_paragraphs` yields exactly the whitespace-trimmed-non-empty
segments of each document's `"\n\n"`-split text, in document order then
segment order, each paragraph carrying the original non-trimmed segment (as
the 1-tuple the code stores), the owning document's id and meta, and
paragraph ids assigned uniquely and monotonically increasing from 0; the
paragraph count is the total number of kept segments. -/
theorem getAllParagraphs_spec (docs : List Document) :
    getAllParagraphs docs = (corpusSegs docs).enum.map mkPara
    ∧ (getAllParagraphs docs).map (fun p => p.paragraph_id)
        = List.range (getAllParagraphs docs).length
    ∧ (getAllParagraphs docs).length
        = (docs.map (fun d => (keptSegs d).length)).sum := by
  have h : getAllParagraphs docs = (corpusSegs docs).enum.map mkPara := by
    rw [getAllParagraphs, docLoop_eq, List.enum_eq_enumFrom]
  have hlen : (getAllParagraphs docs).length = (corpusSegs docs).length := by
    rw [h, List.length_map, List.enum_length]
  refine ⟨h, ?_, ?_⟩
  · have hc : (fun p => p.paragraph_id) ∘ mkPara = Prod.fst := rfl
    rw [h, List.map_map, hc, List.enum_map_fst, List.length_map, List.enum_length]
  · rw [hlen, corpusSegs, List.length_flatMap]
    simp [Function.comp_def]

/-- Dividing a list sum termwise equals dividing the sum. -/
theorem list_sum_map_div {α : Type} (l : List α) (f : α → ℝ) (c : ℝ) :
    (l.map (fun a => f a / c)).sum = (l.map f).sum / c := by
  induction l with
  | nil => simp
  | cons a t ih => simp [ih, add_div]

/-- The smoothed idf weight is always at least 1 (the document frequency
never exceeds the number of texts, so the log argument is at least 1). -/
theorem one_le_idf (texts : List String) (t : String) :
    1 ≤ (fitVectorizer texts).idf t := by
  have hdf : (dfCount texts t : ℝ) ≤ (texts.length : ℝ) := by
    exact_mod_cast List.length_filter_le _ texts
  have hpos : (0 : ℝ) < 1 + (dfCount texts t : ℝ) := by positivity
  have hlog : 0 ≤ Real.log ((1 + (texts.length : ℝ)) / (1 + (dfCount texts t : ℝ))) := by
    apply Real.log_nonneg
    rw [le_div_iff₀ hpos]
    linarith
  simp only [fitVectorizer]
  linarith

/-- A term that does not occur in the text contributes zero raw weight,
whether or not it is in the vocabulary. -/
theorem rawTf_of_count_zero (v : Vectorizer) (x t : String) (h : tfCount x t = 0) :
    rawTf v x t = 0 := by
  simp [rawTf, h]

/-- Raw weight of an in-vocabulary term. -/
theorem rawTf_of_mem (v : Vectorizer) (x t : String) (h : t ∈ v.vocab) :
    rawTf v x t = (tfCount x t : ℝ) * v.idf t := by
  simp [rawTf, h]

/-- A zero component of the raw vector stays zero after normalization. -/
theorem transform_of_rawTf_zero (v : Vectorizer) (x t : String)
    (h : rawTf v x t = 0) : transform v x t = 0 := by
  unfold transform
  rw [h]
  split <;> simp

/-- A text sharing no term with the vocabulary encodes to the zero vector
(the zero-norm branch: the vector is left unnormalized). -/
theorem transform_eq_zero_of_counts (v : Vectorizer) (x : String)
    (h : ∀ t ∈ v.vocab, tfCount x t = 0) : ∀ u, transform v x u = 0 := by
  have hraw : ∀ u, rawTf v x u = 0 := by
    intro u
    unfold rawTf
    split
    · rename_i hm
      rw [h u hm]
      simp
    · rfl
  intro u
  exact transform_of_rawTf_zero v x u (hraw u)

/-- If some vocabulary term occurs in the text, the raw vector of a fitted
vectorizer has positive norm (its weights are `count * idf` with `idf ≥ 1`). -/
theorem l2norm_rawTf_pos (texts : List String) (x : String)
    (h : ∃ u ∈ (fitVectorizer texts).vocab, 0 < tfCount x u) :
    0 < l2normOn (fitVectorizer texts).vocab (rawTf (fitVectorizer texts) x) := by
  obtain ⟨u, hu, hcu⟩ := h
  set v := fitVectorizer texts with hv
  rw [l2normOn, Real.sqrt_pos]
  have hvu : 0 < rawTf v x u := by
    rw [rawTf_of_mem v x u hu]
    have h1 : (0 : ℝ) < (tfCount x u : ℝ) := by exact_mod_cast hcu
    have h2 : (0 : ℝ) < v.idf u := lt_of_lt_of_le one_pos (one_le_idf texts u)
    positivity
  have hmem : rawTf v x u ^ 2 ∈ v.vocab.map (fun t => rawTf v x t ^ 2) :=
    List.mem_map_of_mem _ hu
  have hle : rawTf v x u ^ 2 ≤ (v.vocab.map (fun t => rawTf v x t ^ 2)).sum :=
    List.single_le_sum (fun y hy => by
      obtain ⟨t, _, rfl⟩ := List.mem_map.mp hy
      positivity) _ hmem
  nlinarith

/-- A row with at least one in-vocabulary occurrence is normalized to unit
Euclidean norm. -/
theorem l2norm_transform_eq_one (texts : List String) (x : String)
    (h : ∃ u ∈ (fitVectorizer texts).vocab, 0 < tfCount x u) :
    l2normOn (fitVectorizer texts).vocab (transform (fitVectorizer texts) x) = 1 := by
  set v := fitVectorizer texts with hv
  have hn : 0 < l2normOn v.vocab (rawTf v x) := l2norm_rawTf_pos texts x h
  have hne : l2normOn v.vocab (rawTf v x) ≠ 0 := ne_of_gt hn
  have hS : (0 : ℝ) ≤ (v.vocab.map (fun t => rawTf v x t ^ 2)).sum :=
    List.sum_nonneg (fun y hy => by
      obtain ⟨t, _, rfl⟩ := List.mem_map.mp hy
      positivity)
  have hSpos : (0 : ℝ) < (v.vocab.map (fun t => rawTf v x t ^ 2)).sum := by
    have := hn
    rw [l2normOn, Real.sqrt_pos] at this
    exact this
  have htr : ∀ t, transform v x t = rawTf v x t / l2normOn v.vocab (rawTf v x) := by
    intro t
    rw [transform, if_neg hne]
  rw [l2normOn]
  have hmap : v.vocab.map (fun t => transform v x t ^ 2)
      = v.vocab.map (fun t =>
          (fun u => rawTf v x u ^ 2) t / l2normOn v.vocab (rawTf v x) ^ 2) := by
    apply List.map_congr_left
    intro t _
    rw [htr t, div_pow]
  rw [hmap, list_sum_map_div]
  rw [l2normOn, Real.sq_sqrt hS]
  rw [div_self (ne_of_gt hSpos), Real.sqrt_one]

/-- Cosine identity: the dot product of two encoded vectors is the raw dot
product divided by the product of the raw norms (both nonzero). -/
theorem dotV_transform_eq (v : Vectorizer) (x y : String)
    (hx : l2normOn v.vocab (rawTf v x) ≠ 0) (hy : l2normOn v.vocab (rawTf v y) ≠ 0) :
    dotV v.vocab (transform v x) (transform v y)
      = dotV v.vocab (rawTf v x) (rawTf v y)
        / (l2normOn v.vocab (rawTf v x) * l2normOn v.vocab (rawTf v y)) := by
  rw [dotV, dotV]
  have hmap : v.vocab.map (fun t => transform v x t * transform v y t)
      = v.vocab.map (fun t =>
          (fun u => rawTf v x u * rawTf v y u) t
            / (l2normOn v.vocab (rawTf v x) * l2normOn v.vocab (rawTf v y))) := by
    apply List.map_congr_left
    intro t _
    rw [transform, transform, if_neg hx, if_neg hy, div_mul_div_comm]
  rw [hmap, list_sum_map_div]

/-- Inserting a pair whose index is smaller than every index of a
`rankBefore`-sorted list keeps the list `rankBefore`-sorted: this is the
stability of Python's `sorted` made explicit. -/
theorem orderedInsert_sorted_rankBefore (x : Nat × ℝ) (l : List (Nat × ℝ))
    (hidx : ∀ y ∈ l, x.1 < y.1) (hl : l.Sorted rankBefore) :
    (List.orderedInsert scoreDesc x l).Sorted rankBefore := by
  induction l with
  | nil => simp [List.orderedInsert, List.sorted_singleton]
  | cons b t ih =>
    rw [List.orderedInsert]
    rcases List.sorted_cons.mp hl with ⟨hbt, ht⟩
    by_cases hxb : scoreDesc x b
    · rw [if_pos hxb]
      refine List.sorted_cons.mpr ⟨?_, hl⟩
      intro y hy
      have hxb' : b.2 ≤ x.2 := hxb
      rcases List.mem_cons.mp hy with rfl | hyt
      · rcases lt_or_eq_of_le hxb' with hlt | heq
        · exact Or.inl hlt
        · exact Or.inr ⟨heq.symm, hidx y (List.mem_cons_self y t)⟩
      · rcases hbt y hyt with hlt | ⟨heq, _⟩
        · exact Or.inl (lt_of_lt_of_le hlt hxb')
        · have hyx : y.2 ≤ x.2 := heq ▸ hxb'
          rcases lt_or_eq_of_le hyx with hlt | heq2
          · exact Or.inl hlt
          · exact Or.inr ⟨heq2.symm, hidx y (List.mem_cons_of_mem b hyt)⟩
    · rw [if_neg hxb]
      have hbx : x.2 < b.2 := not_le.mp hxb
      refine List.sorted_cons.mpr
        ⟨?_, ih (fun y hy => hidx y (List.mem_cons_of_mem b hy)) ht⟩
      intro y hy
      rcases (List.mem_orderedInsert scoreDesc).mp hy with rfl | hyt
      · exact Or.inl hbx
      · exact hbt y hyt

/-- Stable sorting a list whose indices are strictly increasing produces a
`rankBefore`-sorted list. -/
theorem insertionSort_sorted_rankBefore (l : List (Nat × ℝ))
    (hl : l.Sorted (fun a b => a.1 < b.1)) :
    (List.insertionSort scoreDesc l).Sorted rankBefore := by
  induction l with
  | nil => simp [List.insertionSort]
  | cons a t ih =>
    rw [List.insertionSort]
    rcases List.sorted_cons.mp hl with ⟨hat, ht⟩
    exact orderedInsert_sorted_rankBefore a _
      (fun y hy => hat y ((List.perm_insertionSort scoreDesc t).subset hy))
      (ih ht)

/-- The enumeration of any list has strictly increasing indices. -/
theorem enum_sorted_fst_lt {α : Type} (l : List α) :
    l.enum.Sorted (fun a b => a.1 < b.1) := by
  have h := List.pairwise_lt_range l.length
  rw [← List.enum_map_fst l] at h
  exact List.pairwise_map.mp h

/-- The sorted index/score sequence of `_calc_scores` is a permutation of
the paragraph row indices. -/
theorem calcScores_map_fst_perm (s : RState) (q : String) :
    ((calcScores s q).map Prod.fst).Perm (List.range s.tfidf_matrix.length) := by
  have h1 : (calcScores s q).Perm (scoresOf s q).enum :=
    List.perm_insertionSort scoreDesc _
  have h2 := h1.map Prod.fst
  rw [List.enum_map_fst] at h2
  have h3 : (scoresOf s q).length = s.tfidf_matrix.length := by
    rw [scoresOf]
    exact List.length_map _ _
  rw [h3] at h2
  exact h2

/-- `_calc_scores` output is sorted by score descending with ties broken by
paragraph index ascending. -/
theorem calcScores_sorted (s : RState) (q : String) :
    (calcScores s q).Sorted rankBefore :=
  insertionSort_sorted_rankBefore _ (enum_sorted_fst_lt _)

/-- A zero query vector yields all-zero scores. -/
theorem scoresOf_of_zero_query (s : RState) (q : String)
    (h : ∀ t, transform s.vectorizer q t = 0) :
    scoresOf s q = s.tfidf_matrix.map (fun _ => 0) := by
  rw [scoresOf]
  apply List.map_congr_left
  intro row _
  rw [dotV]
  apply List.sum_eq_zero
  intro y hy
  obtain ⟨t, _, rfl⟩ := List.mem_map.mp hy
  rw [h t, mul_zero]

/-- With a zero query vector the sort is the identity, so the ranked order
is paragraph insertion order. -/
theorem calcScores_of_zero_query (s : RState) (q : String)
    (h : ∀ t, transform s.vectorizer q t = 0) :
    (calcScores s q).map Prod.fst = List.range s.tfidf_matrix.length := by
  have hsc := scoresOf_of_zero_query s q h
  have hsnd : ∀ x ∈ (scoresOf s q).enum, x.2 = (0 : ℝ) := by
    intro x hx
    have : x.2 ∈ (scoresOf s q).enum.map Prod.snd := List.mem_map_of_mem _ hx
    rw [List.enum_map_snd, hsc] at this
    obtain ⟨_, _, hval⟩ := List.mem_map.mp this
    exact hval.symm
  have hsorted : ((scoresOf s q).enum).Sorted scoreDesc := by
    apply List.pairwise_of_forall_mem_list
    intro a ha b hb
    show b.2 ≤ a.2
    rw [hsnd a ha, hsnd b hb]
  rw [calcScores, List.Sorted.insertionSort_eq hsorted, List.enum_map_fst, hsc,
    List.length_map]

/-- `fit` keeps the captured paragraph sequence. -/
theorem fit_paragraphs (s : RState) : (fit s).paragraphs = s.paragraphs := rfl

/-- `fit` rebuilds the df from the captured paragraphs. -/
theorem fit_df (s : RState) : (fit s).df = s.paragraphs.map toDfRow := rfl

/-- `__init__` captures the store's documents as paragraphs. -/
theorem initRaw_paragraphs (docs : List Document) :
    (initRaw docs).paragraphs = getAllParagraphs docs := rfl

/-- One matrix row per paragraph. -/
theorem fit_matrix_length (s : RState) :
    (fit s).tfidf_matrix.length = (fit s).paragraphs.length := by
  simp [fit]

/-- One matrix row per df row. -/
theorem fit_matrix_df_length (s : RState) :
    (fit s).tfidf_matrix.length = (fit s).df.length := by
  simp [fit]

/-- Sorting does not change the number of scored rows. -/
theorem calcScores_length (s : RState) (q : String) :
    (calcScores s q).length = s.tfidf_matrix.length := by
  rw [calcScores, (List.perm_insertionSort scoreDesc ((scoresOf s q).enum)).length_eq,
    List.enum_length]
  simp [scoresOf]

/-- With default `filters`/`index`, `retrieve` reaches the ranking path and
returns the first `top_k` ranked rows packaged as documents. -/
theorem retrieveE_ok_eq (s : RState) (q : String) (k : Nat) :
    retrieveE s q none k none
      = Except.ok (((((calcScores s q).map Prod.fst).map
          (fun j => s.df.getD j defaultDfRow)).take k).map toResultDoc) := rfl

/-- Constructing a retriever over `docsA` succeeds and yields `sA`. -/
theorem init_docsA : init docsA = Except.ok sA := by
  rw [init, fitE, if_neg (by decide), if_neg (by decide)]
  exact rfl

/-- C8: calling `fit()` twice in a row (the document store is not consulted
by `fit` at all, so in particular an unchanged store) produces identical
TF-IDF matrix values — indeed the whole state is identical. -/
theorem fit_idempotent (s : RState) :
    (fit (fit s)).tfidf_matrix = (fit s).tfidf_matrix ∧ fit (fit s) = fit s :=
  ⟨rfl, rfl⟩

/-- C6 (amended): `fit` replaces the df, vectorizer and matrix wholesale,
recomputed from the paragraph sequence captured by `__init__`; the paragraph
sequence itself is kept, not re-pulled from the document store (only
`__init__` consults the store). -/
theorem fit_rebuilds_captured_state (s : RState) (docs : List Document) :
    (fit s).paragraphs = s.paragraphs
    ∧ (fit s).df = s.paragraphs.map toDfRow
    ∧ (fit s).vectorizer
        = fitVectorizer ((s.paragraphs.map toDfRow).map (fun r => r.text))
    ∧ (fit s).tfidf_matrix
        = ((s.paragraphs.map toDfRow).map (fun r => r.text)).map
            (transform (fitVectorizer ((s.paragraphs.map toDfRow).map (fun r => r.text))))
    ∧ (initRaw docs).paragraphs = getAllParagraphs docs :=
  ⟨rfl, rfl, rfl, rfl, rfl⟩

/-- C6 (counterexample): the retriever is built while the store holds
`docsA`; the store then changes to `docsB`, and a `fit()` call performed at
that moment still yields the paragraphs of `docsA` — contradicting the claim
that the paragraph set reflects the store's contents at the time of the
`fit()` call (`fit` takes no store input at all: the code never re-reads
`self.document_store`). -/
theorem fit_ignores_store_counterexample :
    init docsA = Except.ok sA
    ∧ (fit sA).paragraphs = getAllParagraphs docsA
    ∧ getAllParagraphs docsA ≠ getAllParagraphs docsB :=
  ⟨init_docsA, rfl, by decide⟩

/-- C10: `retrieve` leaves every component of the retriever state unchanged
(the Python method body contains no assignment to `self`), so interleaved
`retrieve` calls observe the same paragraphs, df, matrix and fitted
vectorizer. -/
theorem retrieve_preserves_state (s : RState) (q : String) (f : Option Meta)
    (k : Nat) (i : Option String) :
    (retrieveM s q f k i).1.paragraphs = s.paragraphs
    ∧ (retrieveM s q f k i).1.df = s.df
    ∧ (retrieveM s q f k i).1.tfidf_matrix = s.tfidf_matrix
    ∧ (retrieveM s q f k i).1.vectorizer.vocab = s.vectorizer.vocab
    ∧ (retrieveM s q f k i).1.vectorizer.idf = s.vectorizer.idf
    ∧ (retrieveM s q f k i).2 = retrieveE s q f k i :=
  ⟨rfl, rfl, rfl, rfl, rfl, rfl⟩

/-- C1: after a fit, the scorer orders all paragraph rows by score descending
with ties resolved by original paragraph index ascending (a permutation of
all row indices); a zero query vector degenerates to insertion order;
`retrieve` returns the first `top_k` of that order, so the result length is
`min top_k P`. -/
theorem retrieve_ranking (s : RState) (q : String) (k : Nat) :
    ((calcScores (fit s) q).map Prod.fst).Perm
        (List.range (fit s).paragraphs.length)
    ∧ (calcScores (fit s) q).Sorted rankBefore
    ∧ ((∀ t, transform (fit s).vectorizer q t = 0) →
        (calcScores (fit s) q).map Prod.fst
          = List.range (fit s).paragraphs.length)
    ∧ retrieveE (fit s) q none k none
        = Except.ok ((((((calcScores (fit s) q).map Prod.fst).map
            (fun j => (fit s).df.getD j defaultDfRow)).take k).map toResultDoc))
    ∧ (((((calcScores (fit s) q).map Prod.fst).map
          (fun j => (fit s).df.getD j defaultDfRow)).take k).map toResultDoc).length
        = min k (fit s).paragraphs.length := by
  refine ⟨?_, calcScores_sorted (fit s) q, ?_, retrieveE_ok_eq (fit s) q k, ?_⟩
  · have h := calcScores_map_fst_perm (fit s) q
    rwa [fit_matrix_length] at h
  · intro h
    have h2 := calcScores_of_zero_query (fit s) q h
    rwa [fit_matrix_length] at h2
  · rw [List.length_map, List.length_take, List.length_map, List.length_map,
      calcScores_length, fit_matrix_length]

/-- C1 (witness): over the one-paragraph corpus `docsA` and the
out-of-vocabulary query `"xy"` (zero query vector), the ranked indices are a
permutation of `range 1` and equal paragraph insertion order. -/
theorem retrieve_ranking_witness :
    ((calcScores sA "xy").map Prod.fst).Perm (List.range sA.paragraphs.length)
    ∧ (calcScores sA "xy").map Prod.fst = List.range sA.paragraphs.length := by
  have h := retrieve_ranking (initRaw docsA) "xy" 3
  exact ⟨h.1, h.2.2.1 (transform_eq_zero_of_counts _ "xy" (by decide))⟩

/-- C3: the fitted vectorizer assigns each term the smoothed idf
`ln((1 + P) / (1 + df(t))) + 1`; a text with no in-vocabulary term encodes to
the zero vector (rather than being divided by a zero norm), and a text with
at least one in-vocabulary occurrence is L2-normalized to unit norm, each
component being `count(t)·idf(t)` divided by the row's Euclidean norm.  The
same `transform` is what encodes queries over the frozen vocabulary. -/
theorem vectorizer_spec (texts : List String) (x t : String) :
    ((fitVectorizer texts).idf t
        = Real.log ((1 + (texts.length : ℝ)) / (1 + (dfCount texts t : ℝ))) + 1)
    ∧ ((∀ u ∈ (fitVectorizer texts).vocab, tfCount x u = 0) →
        ∀ u, transform (fitVectorizer texts) x u = 0)
    ∧ ((∃ u ∈ (fitVectorizer texts).vocab, 0 < tfCount x u) →
        l2normOn (fitVectorizer texts).vocab (transform (fitVectorizer texts) x) = 1
        ∧ ∀ u, transform (fitVectorizer texts) x u
            = rawTf (fitVectorizer texts) x u
              / l2normOn (fitVectorizer texts).vocab (rawTf (fitVectorizer texts) x)) := by
  refine ⟨rfl, transform_eq_zero_of_counts _ x, ?_⟩
  intro h
  refine ⟨l2norm_transform_eq_one texts x h, ?_⟩
  intro u
  rw [transform, if_neg (ne_of_gt (l2norm_rawTf_pos texts x h))]

/-- C3 (witness): on the two-text corpus `["ab cd", "cd"]`, the encoded text
`"ab cd"` has unit norm, and the all-out-of-vocabulary text `"xy"` encodes to
the zero vector. -/
theorem vectorizer_spec_witness :
    l2normOn (fitVectorizer ["ab cd", "cd"]).vocab
        (transform (fitVectorizer ["ab cd", "cd"]) "ab cd") = 1
    ∧ ∀ u, transform (fitVectorizer ["ab cd", "cd"]) "xy" u = 0 := by
  refine ⟨((vectorizer_spec ["ab cd", "cd"] "ab cd" "ab").2.2 ?_).1,
    (vectorizer_spec ["ab cd", "cd"] "xy" "ab").2.1 (by decide)⟩
  exact ⟨"ab", by decide, by decide⟩

/-- C4 (amended): `retrieve` fails with the filters capability error whenever
`filters` is truthy (a non-empty mapping) — regardless of any other argument
or of the state, i.e. before any scoring — and with the index capability
error whenever `index` is truthy (a non-null, non-empty string); with falsy
`filters` and `index` (including the non-null empty-string index) it proceeds
to scoring. -/
theorem retrieve_guards (s : RState) (q : String) (f : Option Meta) (k : Nat)
    (i : Option String) :
    (pyTruthyFilters f = true →
        retrieveE s q f k i = Except.error .filtersNotImplemented)
    ∧ (pyTruthyFilters f = false → pyTruthyIndex i = true →
        retrieveE s q f k i = Except.error .switchingIndexNotSupported)
    ∧ (pyTruthyFilters f = false → pyTruthyIndex i = false →
        retrieveE s q f k i
          = Except.ok (((((calcScores s q).map Prod.fst).map
              (fun j => s.df.getD j defaultDfRow)).take k).map toResultDoc)) := by
  refine ⟨?_, ?_, ?_⟩
  · intro h
    rw [retrieveE, if_pos h]
  · intro h1 h2
    rw [retrieveE, if_neg (by simp [h1]), if_pos h2]
  · intro h1 h2
    rw [retrieveE, if_neg (by simp [h1]), if_neg (by simp [h2])]

/-- C4 (witness): a non-empty filters mapping raises the filters error, a
non-empty index string raises the index error, and the default arguments
reach the ranking path. -/
theorem retrieve_guards_witness :
    retrieveE sA "hello" (some [("x", "1")]) 10 none
        = Except.error .filtersNotImplemented
    ∧ retrieveE sA "hello" none 10 (some "other")
        = Except.error .switchingIndexNotSupported
    ∧ retrieveE sA "hello" none 10 none
        = Except.ok (((((calcScores sA "hello").map Prod.fst).map
            (fun j => sA.df.getD j defaultDfRow)).take 10).map toResultDoc) :=
  ⟨(retrieve_guards sA "hello" (some [("x", "1")]) 10 none).1 rfl,
   (retrieve_guards sA "hello" none 10 (some "other")).2.1 rfl rfl,
   (retrieve_guards sA "hello" none 10 none).2.2 rfl rfl⟩

/-- C4 (counterexample): `index = ""` is non-null, yet `retrieve` does not
fail — Python's `if index:` treats the empty string as falsy, so the call
silently proceeds and returns the ranked result. -/
theorem retrieve_empty_index_counterexample :
    retrieveE sA "hello" none 10 (some "") = Except.ok [resA]
    ∧ (retrieveE sA "hello" none 10 (some "")).isOk = true :=
  ⟨rfl, rfl⟩

/-- C5: construction fails (with the errors the spec groups as `EmptyCorpus`)
exactly when the store segments to zero non-empty paragraphs or the corpus
tokenizes to zero terms, and on failure no retriever state exists at all;
`fit()` on any successfully constructed retriever succeeds again (the
captured paragraphs that passed construction pass unchanged), so a failing
`fit` can never leave partial state behind. -/
theorem fit_empty_corpus (docs : List Document) :
    ((∃ e, init docs = Except.error e)
      ↔ (getAllParagraphs docs = []
          ∨ ((getAllParagraphs docs).map (fun p => pyJoin " " p.text)).flatMap tokenize
              = []))
    ∧ (∀ s, init docs = Except.ok s → fitE s = Except.ok (fit s)) := by
  by_cases h1 : getAllParagraphs docs = []
  · refine ⟨⟨fun _ => Or.inl h1, fun _ => ⟨.emptyDataFrame, ?_⟩⟩, ?_⟩
    · rw [init, fitE, if_pos (by simp [initRaw_paragraphs, h1])]
    · intro s hs
      rw [init, fitE, if_pos (by simp [initRaw_paragraphs, h1])] at hs
      exact absurd hs (by simp)
  · by_cases h2 : ((getAllParagraphs docs).map (fun p => pyJoin " " p.text)).flatMap
        tokenize = []
    · refine ⟨⟨fun _ => Or.inr h2, fun _ => ⟨.emptyVocabulary, ?_⟩⟩, ?_⟩
      · rw [init, fitE, if_neg (by simp [initRaw_paragraphs, h1]),
          if_pos (by simp [initRaw_paragraphs, h2])]
      · intro s hs
        rw [init, fitE, if_neg (by simp [initRaw_paragraphs, h1]),
          if_pos (by simp [initRaw_paragraphs, h2])] at hs
        exact absurd hs (by simp)
    · constructor
      · constructor
        · rintro ⟨e, he⟩
          rw [init, fitE, if_neg (by simp [initRaw_paragraphs, h1]),
            if_neg (by simp [initRaw_paragraphs, h2])] at he
          exact absurd he (by simp)
        · rintro (h | h)
          · exact absurd h h1
          · exact absurd h h2
      · intro s hs
        rw [init, fitE, if_neg (by simp [initRaw_paragraphs, h1]),
          if_neg (by simp [initRaw_paragraphs, h2])] at hs
        have hs' : fit (initRaw docs) = s := by
          injection hs
        subst hs'
        rw [fitE, if_neg (by simp [fit_paragraphs, initRaw_paragraphs, h1]),
          if_neg (by simp [fit_paragraphs, initRaw_paragraphs, h2])]

/-- C5 (witness): the corpus `docsA` passes construction, and refitting the
constructed state succeeds. -/
theorem fit_empty_corpus_witness : fitE sA = Except.ok (fit sA) :=
  (fit_empty_corpus docsA).2 sA init_docsA

/-- C7 (amended): every result document of a successful `retrieve` carries a
matched paragraph's `paragraph_id` as its id, the paragraph's (joined) text
as its text, and the owning document's original meta — only that meta, with
no added document id or paragraph id keys — as its metadata; the `Document`
record has no score field, so no similarity score appears in the result. -/
theorem retrieve_result_fields (s : RState) (q : String) (k : Nat)
    (docs : List Document)
    (hret : retrieveE (fit s) q none k none = Except.ok docs) :
    ∀ d ∈ docs, ∃ p ∈ (fit s).paragraphs,
      d.id = Sum.inl p.paragraph_id ∧ d.text = pyJoin " " p.text
        ∧ d.meta = p.meta := by
  rw [retrieveE_ok_eq] at hret
  have hdocs : docs = ((((calcScores (fit s) q).map Prod.fst).map
      (fun j => (fit s).df.getD j defaultDfRow)).take k).map toResultDoc := by
    injection hret with h
    exact h.symm
  subst hdocs
  intro d hd
  obtain ⟨row, hrowmem, rfl⟩ := List.mem_map.mp hd
  have hrow2 := List.take_subset k _ hrowmem
  obtain ⟨j, hj, rfl⟩ := List.mem_map.mp hrow2
  have hjlt : j < (fit s).df.length := by
    have hmem := (calcScores_map_fst_perm (fit s) q).subset hj
    rw [fit_matrix_df_length] at hmem
    exact List.mem_range.mp hmem
  have hrow : (fit s).df.getD j defaultDfRow ∈ (fit s).df := by
    rw [List.getD_eq_getElem _ _ hjlt]
    exact List.getElem_mem hjlt
  have hrow2m : (fit s).df.getD j defaultDfRow ∈ s.paragraphs.map toDfRow := hrow
  obtain ⟨p, hp, hpe⟩ := List.mem_map.mp hrow2m
  exact ⟨p, hp, by rw [← hpe]; rfl, by rw [← hpe]; rfl, by rw [← hpe]; rfl⟩

/-- C7 (witness): the single result of `retrieve("hello")` over `docsA`
corresponds to the captured paragraph. -/
theorem retrieve_result_fields_witness :
    ∃ p ∈ (fit (initRaw docsA)).paragraphs,
      resA.id = Sum.inl p.paragraph_id ∧ resA.text = pyJoin " " p.text
        ∧ resA.meta = p.meta :=
  retrieve_result_fields (initRaw docsA) "hello" 10 [resA] rfl resA
    (List.mem_singleton_self resA)

/-- C7 (counterexample): the result metadata is exactly the owning document's
original meta: for the corpus `docsA` (document id `"d1"`, meta
`[("k", "v")]`), the returned metadata has no `"document_id"` or
`"paragraph_id"` key and mentions `"d1"` nowhere — contrary to the claim that
the metadata contains the owning document id and the paragraph id. -/
theorem retrieve_meta_counterexample :
    retrieveE sA "hello" none 10 none = Except.ok [resA]
    ∧ resA.meta = [("k", "v")]
    ∧ ("document_id", "d1") ∉ resA.meta
    ∧ "d1" ∉ resA.meta.map Prod.snd
    ∧ "document_id" ∉ resA.meta.map Prod.fst
    ∧ "paragraph_id" ∉ resA.meta.map Prod.fst :=
  ⟨rfl, rfl, by decide, by decide, by decide, by decide⟩

/-- The scenario vocabulary is the deduped term list. -/
theorem v9_vocab : v9.vocab = L9 := by decide

/-- Idf of a scenario term occurring in exactly one paragraph. -/
theorem v9_idf_one (t : String) (h : dfCount T9 t = 1) : v9.idf t = idfRare := by
  have h0 : v9.idf t
      = Real.log ((1 + (T9.length : ℝ)) / (1 + (dfCount T9 t : ℝ))) + 1 := rfl
  have hl : (T9.length : ℝ) = 3 := by simp [T9]
  rw [h0, h, hl]
  simp only [idfRare]
  norm_num

/-- Idf of a scenario term occurring in exactly two paragraphs. -/
theorem v9_idf_two (t : String) (h : dfCount T9 t = 2) : v9.idf t = idfCommon := by
  have h0 : v9.idf t
      = Real.log ((1 + (T9.length : ℝ)) / (1 + (dfCount T9 t : ℝ))) + 1 := rfl
  have hl : (T9.length : ℝ) = 3 := by simp [T9]
  rw [h0, h, hl]
  simp only [idfCommon]
  norm_num

/-- Idf value of the scenario term "cats". -/
theorem idf_cats : v9.idf "cats" = idfRare := v9_idf_one "cats" (by decide)

/-- Idf value of the scenario term "dogs". -/
theorem idf_dogs : v9.idf "dogs" = idfRare := v9_idf_one "dogs" (by decide)

/-- Idf value of the scenario term "are". -/
theorem idf_are : v9.idf "are" = idfCommon := v9_idf_two "are" (by decide)

/-- Idf value of the scenario term "great". -/
theorem idf_great : v9.idf "great" = idfCommon := v9_idf_two "great" (by decide)

/-- Idf value of the scenario term "too". -/
theorem idf_too : v9.idf "too" = idfRare := v9_idf_one "too" (by decide)

/-- Idf value of the scenario term "the". -/
theorem idf_the : v9.idf "the" = idfRare := v9_idf_one "the" (by decide)

/-- Idf value of the scenario term "weather". -/
theorem idf_weather : v9.idf "weather" = idfRare := v9_idf_one "weather" (by decide)

/-- Idf value of the scenario term "is". -/
theorem idf_is : v9.idf "is" = idfRare := v9_idf_one "is" (by decide)

/-- Idf value of the scenario term "nice". -/
theorem idf_nice : v9.idf "nice" = idfRare := v9_idf_one "nice" (by decide)

/-- Term count of "cats" in `tA`. -/
theorem cnt_tA_cats : tfCount tA "cats" = 1 := by decide

/-- Term count of "dogs" in `tA`. -/
theorem cnt_tA_dogs : tfCount tA "dogs" = 0 := by decide

/-- Term count of "are" in `tA`. -/
theorem cnt_tA_are : tfCount tA "are" = 1 := by decide

/-- Term count of "great" in `tA`. -/
theorem cnt_tA_great : tfCount tA "great" = 1 := by decide

/-- Term count of "too" in `tA`. -/
theorem cnt_tA_too : tfCount tA "too" = 0 := by decide

/-- Term count of "the" in `tA`. -/
theorem cnt_tA_the : tfCount tA "the" = 0 := by decide

/-- Term count of "weather" in `tA`. -/
theorem cnt_tA_weather : tfCount tA "weather" = 0 := by decide

/-- Term count of "is" in `tA`. -/
theorem cnt_tA_is : tfCount tA "is" = 0 := by decide

/-- Term count of "nice" in `tA`. -/
theorem cnt_tA_nice : tfCount tA "nice" = 0 := by decide

/-- Term count of "cats" in `tB`. -/
theorem cnt_tB_cats : tfCount tB "cats" = 0 := by decide

/-- Term count of "dogs" in `tB`. -/
theorem cnt_tB_dogs : tfCount tB "dogs" = 1 := by decide

/-- Term count of "are" in `tB`. -/
theorem cnt_tB_are : tfCount tB "are" = 1 := by decide

/-- Term count of "great" in `tB`. -/
theorem cnt_tB_great : tfCount tB "great" = 1 := by decide

/-- Term count of "too" in `tB`. -/
theorem cnt_tB_too : tfCount tB "too" = 1 := by decide

/-- Term count of "the" in `tB`. -/
theorem cnt_tB_the : tfCount tB "the" = 0 := by decide

/-- Term count of "weather" in `tB`. -/
theorem cnt_tB_weather : tfCount tB "weather" = 0 := by decide

/-- Term count of "is" in `tB`. -/
theorem cnt_tB_is : tfCount tB "is" = 0 := by decide

/-- Term count of "nice" in `tB`. -/
theorem cnt_tB_nice : tfCount tB "nice" = 0 := by decide

/-- Term count of "cats" in `tC`. -/
theorem cnt_tC_cats : tfCount tC "cats" = 0 := by decide

/-- Term count of "dogs" in `tC`. -/
theorem cnt_tC_dogs : tfCount tC "dogs" = 0 := by decide

/-- Term count of "are" in `tC`. -/
theorem cnt_tC_are : tfCount tC "are" = 0 := by decide

/-- Term count of "great" in `tC`. -/
theorem cnt_tC_great : tfCount tC "great" = 0 := by decide

/-- Term count of "too" in `tC`. -/
theorem cnt_tC_too : tfCount tC "too" = 0 := by decide

/-- Term count of "the" in `tC`. -/
theorem cnt_tC_the : tfCount tC "the" = 1 := by decide

/-- Term count of "weather" in `tC`. -/
theorem cnt_tC_weather : tfCount tC "weather" = 1 := by decide

/-- Term count of "is" in `tC`. -/
theorem cnt_tC_is : tfCount tC "is" = 1 := by decide

/-- Term count of "nice" in `tC`. -/
theorem cnt_tC_nice : tfCount tC "nice" = 1 := by decide

/-- Term count of "cats" in `qq`. -/
theorem cnt_qq_cats : tfCount qq "cats" = 1 := by decide

/-- Term count of "dogs" in `qq`. -/
theorem cnt_qq_dogs : tfCount qq "dogs" = 0 := by decide

/-- Term count of "are" in `qq`. -/
theorem cnt_qq_are : tfCount qq "are" = 0 := by decide

/-- Term count of "great" in `qq`. -/
theorem cnt_qq_great : tfCount qq "great" = 1 := by decide

/-- Term count of "too" in `qq`. -/
theorem cnt_qq_too : tfCount qq "too" = 0 := by decide

/-- Term count of "the" in `qq`. -/
theorem cnt_qq_the : tfCount qq "the" = 0 := by decide

/-- Term count of "weather" in `qq`. -/
theorem cnt_qq_weather : tfCount qq "weather" = 0 := by decide

/-- Term count of "is" in `qq`. -/
theorem cnt_qq_is : tfCount qq "is" = 0 := by decide

/-- Term count of "nice" in `qq`. -/
theorem cnt_qq_nice : tfCount qq "nice" = 0 := by decide

/-- Raw dot products over the scenario vocabulary, in terms of counts and
idf weights. -/
theorem dotV_v9_raw (x y : String) :
    dotV v9.vocab (rawTf v9 x) (rawTf v9 y)
      = (L9.map (fun t =>
          (tfCount x t : ℝ) * v9.idf t * ((tfCount y t : ℝ) * v9.idf t))).sum := by
  rw [v9_vocab, dotV]
  refine congrArg List.sum (List.map_congr_left ?_)
  intro t ht
  rw [rawTf_of_mem v9 x t (by rw [v9_vocab]; exact ht),
    rawTf_of_mem v9 y t (by rw [v9_vocab]; exact ht)]

/-- The L2 norm is the square root of the self dot product. -/
theorem l2normOn_eq_sqrt_dot (vocab : List String) (f : TermVec) :
    l2normOn vocab f = Real.sqrt (dotV vocab f f) := by
  rw [l2normOn, dotV]
  congr 1
  refine congrArg List.sum (List.map_congr_left ?_)
  intro t _
  ring

/-- Raw dot product of `tA` and `qq` in the scenario. -/
theorem dot_tA_qq : dotV v9.vocab (rawTf v9 tA) (rawTf v9 qq) = idfRare ^ 2 + idfCommon ^ 2 := by
  rw [dotV_v9_raw]
  simp only [L9, List.map_cons, List.map_nil, List.sum_cons, List.sum_nil,
    cnt_tA_cats, cnt_tA_dogs, cnt_tA_are, cnt_tA_great, cnt_tA_too, cnt_tA_the, cnt_tA_weather, cnt_tA_is, cnt_tA_nice, cnt_qq_cats, cnt_qq_dogs, cnt_qq_are, cnt_qq_great, cnt_qq_too, cnt_qq_the, cnt_qq_weather, cnt_qq_is, cnt_qq_nice,
    idf_cats, idf_dogs, idf_are, idf_great, idf_too, idf_the, idf_weather, idf_is, idf_nice]
  push_cast
  ring

/-- Raw dot product of `tB` and `qq` in the scenario. -/
theorem dot_tB_qq : dotV v9.vocab (rawTf v9 tB) (rawTf v9 qq) = idfCommon ^ 2 := by
  rw [dotV_v9_raw]
  simp only [L9, List.map_cons, List.map_nil, List.sum_cons, List.sum_nil,
    cnt_tB_cats, cnt_tB_dogs, cnt_tB_are, cnt_tB_great, cnt_tB_too, cnt_tB_the, cnt_tB_weather, cnt_tB_is, cnt_tB_nice, cnt_qq_cats, cnt_qq_dogs, cnt_qq_are, cnt_qq_great, cnt_qq_too, cnt_qq_the, cnt_qq_weather, cnt_qq_is, cnt_qq_nice,
    idf_cats, idf_dogs, idf_are, idf_great, idf_too, idf_the, idf_weather, idf_is, idf_nice]
  push_cast
  ring

/-- Raw dot product of `tC` and `qq` in the scenario. -/
theorem dot_tC_qq : dotV v9.vocab (rawTf v9 tC) (rawTf v9 qq) = 0 := by
  rw [dotV_v9_raw]
  simp only [L9, List.map_cons, List.map_nil, List.sum_cons, List.sum_nil,
    cnt_tC_cats, cnt_tC_dogs, cnt_tC_are, cnt_tC_great, cnt_tC_too, cnt_tC_the, cnt_tC_weather, cnt_tC_is, cnt_tC_nice, cnt_qq_cats, cnt_qq_dogs, cnt_qq_are, cnt_qq_great, cnt_qq_too, cnt_qq_the, cnt_qq_weather, cnt_qq_is, cnt_qq_nice,
    idf_cats, idf_dogs, idf_are, idf_great, idf_too, idf_the, idf_weather, idf_is, idf_nice]
  push_cast
  ring

/-- Raw dot product of `tA` and `tA` in the scenario. -/
theorem dot_tA_tA : dotV v9.vocab (rawTf v9 tA) (rawTf v9 tA) = idfRare ^ 2 + 2 * idfCommon ^ 2 := by
  rw [dotV_v9_raw]
  simp only [L9, List.map_cons, List.map_nil, List.sum_cons, List.sum_nil,
    cnt_tA_cats, cnt_tA_dogs, cnt_tA_are, cnt_tA_great, cnt_tA_too, cnt_tA_the, cnt_tA_weather, cnt_tA_is, cnt_tA_nice,
    idf_cats, idf_dogs, idf_are, idf_great, idf_too, idf_the, idf_weather, idf_is, idf_nice]
  push_cast
  ring

/-- Raw dot product of `tB` and `tB` in the scenario. -/
theorem dot_tB_tB : dotV v9.vocab (rawTf v9 tB) (rawTf v9 tB) = 2 * idfRare ^ 2 + 2 * idfCommon ^ 2 := by
  rw [dotV_v9_raw]
  simp only [L9, List.map_cons, List.map_nil, List.sum_cons, List.sum_nil,
    cnt_tB_cats, cnt_tB_dogs, cnt_tB_are, cnt_tB_great, cnt_tB_too, cnt_tB_the, cnt_tB_weather, cnt_tB_is, cnt_tB_nice,
    idf_cats, idf_dogs, idf_are, idf_great, idf_too, idf_the, idf_weather, idf_is, idf_nice]
  push_cast
  ring

/-- Raw dot product of `tC` and `tC` in the scenario. -/
theorem dot_tC_tC : dotV v9.vocab (rawTf v9 tC) (rawTf v9 tC) = 4 * idfRare ^ 2 := by
  rw [dotV_v9_raw]
  simp only [L9, List.map_cons, List.map_nil, List.sum_cons, List.sum_nil,
    cnt_tC_cats, cnt_tC_dogs, cnt_tC_are, cnt_tC_great, cnt_tC_too, cnt_tC_the, cnt_tC_weather, cnt_tC_is, cnt_tC_nice,
    idf_cats, idf_dogs, idf_are, idf_great, idf_too, idf_the, idf_weather, idf_is, idf_nice]
  push_cast
  ring

/-- Raw dot product of `qq` and `qq` in the scenario. -/
theorem dot_qq_qq : dotV v9.vocab (rawTf v9 qq) (rawTf v9 qq) = idfRare ^ 2 + idfCommon ^ 2 := by
  rw [dotV_v9_raw]
  simp only [L9, List.map_cons, List.map_nil, List.sum_cons, List.sum_nil,
    cnt_qq_cats, cnt_qq_dogs, cnt_qq_are, cnt_qq_great, cnt_qq_too, cnt_qq_the, cnt_qq_weather, cnt_qq_is, cnt_qq_nice,
    idf_cats, idf_dogs, idf_are, idf_great, idf_too, idf_the, idf_weather, idf_is, idf_nice]
  push_cast
  ring

/-- Both scenario idf values are positive. -/
theorem idfRare_pos : 0 < idfRare := by
  have h := Real.log_pos (by norm_num : (1 : ℝ) < 2)
  simp only [idfRare]
  linarith

/-- The lower idf weight is positive as well. -/
theorem idfCommon_pos : 0 < idfCommon := by
  have h := Real.log_pos (by norm_num : (1 : ℝ) < 4 / 3)
  simp only [idfCommon]
  linarith

/-- Raw norm of the first scenario paragraph. -/
theorem n_tA : l2normOn v9.vocab (rawTf v9 tA)
    = Real.sqrt (idfRare ^ 2 + 2 * idfCommon ^ 2) := by
  rw [l2normOn_eq_sqrt_dot, dot_tA_tA]

/-- Raw norm of the second scenario paragraph. -/
theorem n_tB : l2normOn v9.vocab (rawTf v9 tB)
    = Real.sqrt (2 * idfRare ^ 2 + 2 * idfCommon ^ 2) := by
  rw [l2normOn_eq_sqrt_dot, dot_tB_tB]

/-- Raw norm of the third scenario paragraph. -/
theorem n_tC : l2normOn v9.vocab (rawTf v9 tC)
    = Real.sqrt (4 * idfRare ^ 2) := by
  rw [l2normOn_eq_sqrt_dot, dot_tC_tC]

/-- Raw norm of the scenario query. -/
theorem n_qq : l2normOn v9.vocab (rawTf v9 qq)
    = Real.sqrt (idfRare ^ 2 + idfCommon ^ 2) := by
  rw [l2normOn_eq_sqrt_dot, dot_qq_qq]

/-- The first paragraph's raw norm is positive. -/
theorem n_tA_pos : 0 < l2normOn v9.vocab (rawTf v9 tA) := by
  have h1 := idfRare_pos
  have h2 := idfCommon_pos
  rw [n_tA]
  apply Real.sqrt_pos.mpr
  nlinarith

/-- The second paragraph's raw norm is positive. -/
theorem n_tB_pos : 0 < l2normOn v9.vocab (rawTf v9 tB) := by
  have h1 := idfRare_pos
  have h2 := idfCommon_pos
  rw [n_tB]
  apply Real.sqrt_pos.mpr
  nlinarith

/-- The third paragraph's raw norm is positive. -/
theorem n_tC_pos : 0 < l2normOn v9.vocab (rawTf v9 tC) := by
  have h1 := idfRare_pos
  rw [n_tC]
  apply Real.sqrt_pos.mpr
  nlinarith

/-- The query's raw norm is positive. -/
theorem n_qq_pos : 0 < l2normOn v9.vocab (rawTf v9 qq) := by
  have h1 := idfRare_pos
  have h2 := idfCommon_pos
  rw [n_qq]
  apply Real.sqrt_pos.mpr
  nlinarith

/-- Value of the first scenario score. -/
theorem sc0_val : sc0 = (idfRare ^ 2 + idfCommon ^ 2)
    / (Real.sqrt (idfRare ^ 2 + 2 * idfCommon ^ 2)
        * Real.sqrt (idfRare ^ 2 + idfCommon ^ 2)) := by
  rw [sc0, dotV_transform_eq v9 tA qq (ne_of_gt n_tA_pos) (ne_of_gt n_qq_pos),
    dot_tA_qq, n_tA, n_qq]

/-- Value of the second scenario score. -/
theorem sc1_val : sc1 = idfCommon ^ 2
    / (Real.sqrt (2 * idfRare ^ 2 + 2 * idfCommon ^ 2)
        * Real.sqrt (idfRare ^ 2 + idfCommon ^ 2)) := by
  rw [sc1, dotV_transform_eq v9 tB qq (ne_of_gt n_tB_pos) (ne_of_gt n_qq_pos),
    dot_tB_qq, n_tB, n_qq]

/-- The third scenario paragraph scores zero (no shared term). -/
theorem sc2_val : sc2 = 0 := by
  rw [sc2, dotV_transform_eq v9 tC qq (ne_of_gt n_tC_pos) (ne_of_gt n_qq_pos),
    dot_tC_qq, zero_div]

/-- The second score is nonnegative. -/
theorem sc1_nonneg : 0 ≤ sc1 := by
  rw [sc1_val]
  positivity

/-- The first paragraph scores at least the second: it shares two terms
(higher raw dot) and has a smaller raw norm. -/
theorem sc1_le_sc0 : sc1 ≤ sc0 := by
  have h1 := idfRare_pos
  have h2 := idfCommon_pos
  rw [sc0_val, sc1_val]
  apply div_le_div₀
  · positivity
  · nlinarith
  · apply mul_pos
    · apply Real.sqrt_pos.mpr
      nlinarith
    · apply Real.sqrt_pos.mpr
      nlinarith
  · apply mul_le_mul_of_nonneg_right
    · apply Real.sqrt_le_sqrt
      nlinarith
    · exact Real.sqrt_nonneg _

/-- The scenario matrix scores against the query, row by row. -/
theorem scores_s9 : scoresOf s9 qq = [sc0, sc1, sc2] := rfl

/-- C9: over the two-document scenario corpus, fitting produces exactly the
three expected paragraphs p0/p1/p2 (ids 0,1,2), and `retrieve("cats great",
top_k=2)` returns p0 then p1 and excludes p2. -/
theorem scenario_cats_retrieval :
    init corpus9 = Except.ok s9
    ∧ s9.paragraphs
        = [⟨0, Sum.inr "doc1", ["cats are great"], []⟩,
           ⟨1, Sum.inr "doc1", ["Dogs are great too"], []⟩,
           ⟨2, Sum.inr "doc2", ["The weather is nice"], []⟩]
    ∧ retrieveE s9 "cats great" none 2 none
        = Except.ok [⟨Sum.inl 0, "cats are great", []⟩,
                     ⟨Sum.inl 1, "Dogs are great too", []⟩] := by
  refine ⟨?_, by decide, ?_⟩
  · rw [init, fitE, if_neg (by decide), if_neg (by decide)]
    exact rfl
  · show retrieveE s9 qq none 2 none = _
    have henum : (scoresOf s9 qq).enum = [(0, sc0), (1, sc1), (2, sc2)] := by
      rw [scores_s9]
      rfl
    have hc12 : scoreDesc (1, sc1) (2, sc2) := by
      show sc2 ≤ sc1
      rw [sc2_val]
      exact sc1_nonneg
    have hc01 : scoreDesc (0, sc0) (1, sc1) := by
      show sc1 ≤ sc0
      exact sc1_le_sc0
    have i2 : List.orderedInsert scoreDesc (1, sc1) [(2, sc2)]
        = [(1, sc1), (2, sc2)] := by
      rw [List.orderedInsert, if_pos hc12]
    have i3 : List.orderedInsert scoreDesc (0, sc0) [(1, sc1), (2, sc2)]
        = [(0, sc0), (1, sc1), (2, sc2)] := by
      rw [List.orderedInsert, if_pos hc01]
    have hcalc : calcScores s9 qq = [(0, sc0), (1, sc1), (2, sc2)] := by
      rw [calcScores, henum]
      simp only [List.insertionSort]
      rw [show List.orderedInsert scoreDesc (2, sc2) ([] : List (Nat × ℝ))
          = [(2, sc2)] from rfl, i2, i3]
    rw [retrieveE_ok_eq, hcalc]
    exact rfl

end Haystack
